import Mathlib

/-!
Shallow embedding of the geographic tiering and partnership ranking logic of
the nonprofit-partner-finder repository.

Section 1 embeds the tier partition of api/final_search.py; section 2 the
data model of src/models/nonprofit.py; section 3 the ranking engine of
src/core/ranking_engine.py; section 4 the explanation generation of
src/analyzers/mission_alignment.py. Theorems about the frozen claims follow
the definitions.

Python floats are modelled as rationals, Python exceptions as Option or
Except values, and mutation as explicit record updates.
-/

namespace NPF

/-- Models Python str.lower() on the city and state strings: every character
mapped to its lower-case form. -/
def pyLower (s : String) : String := ⟨s.data.map Char.toLower⟩

/-- A resolved location, the value built by get_location_from_zip in
api/final_search.py (lines 177-187) from the static ZIP table. -/
structure Location where
  city : String
  county : String
  state : String
deriving DecidableEq

/-- One organization record of the candidate list, the org_info dict built in
search_by_location (api/final_search.py lines 291-298): ein, name, city,
state and the relevance score returned by the registry search. -/
structure OrgRecord where
  ein : String
  name : String
  city : String
  state : String
  score : ℚ
deriving DecidableEq

/-- The exact-city condition of api/final_search.py line 301:
if city and city.lower() == org_city.lower(). The truthiness test on the
location city is the emptiness test. -/
def isExactCity (loc : Location) (org : OrgRecord) : Bool :=
  !(loc.city == "") && (pyLower loc.city == pyLower org.city)

/-- The same-county condition of api/final_search.py line 306:
org_city in nearby_cities, an exact (case-sensitive) membership test. -/
def isCountyCity (nearby : List String) (org : OrgRecord) : Bool :=
  nearby.contains org.city

/-- The same-state condition of api/final_search.py line 311:
org_state == state. -/
def isSameState (loc : Location) (org : OrgRecord) : Bool :=
  org.state == loc.state

/-- The tier-assignment loop of search_by_location (api/final_search.py
lines 283-314). Each candidate is appended to the exact_city, same_county or
same_state list by the first matching condition; a candidate matching none of
the three conditions is appended to no list (the loop has no else branch). -/
def partitionByProximity (loc : Location) (nearby : List String) :
    List OrgRecord → List OrgRecord × List OrgRecord × List OrgRecord
  | [] => ([], [], [])
  | org :: rest =>
    let tiers := partitionByProximity loc nearby rest
    if isExactCity loc org then (org :: tiers.1, tiers.2.1, tiers.2.2)
    else if isCountyCity nearby org then (tiers.1, org :: tiers.2.1, tiers.2.2)
    else if isSameState loc org then (tiers.1, tiers.2.1, org :: tiers.2.2)
    else tiers

/-- Descending order on relevance scores, the key of the three
list.sort(key=lambda x: x[score], reverse=True) calls of api/final_search.py
lines 317-319. -/
def byRelevanceDesc (x y : OrgRecord) : Prop := y.score ≤ x.score

instance : DecidableRel byRelevanceDesc := fun x y =>
  inferInstanceAs (Decidable (y.score ≤ x.score))

instance : IsTotal OrgRecord byRelevanceDesc :=
  ⟨fun x y => le_total y.score x.score⟩

instance : IsTrans OrgRecord byRelevanceDesc :=
  ⟨fun _ _ _ h₁ h₂ => le_trans h₂ h₁⟩

/-- Python list.sort is a stable sort; a stable sort by descending relevance
score is modelled by insertion sort under byRelevanceDesc. -/
def sortByRelevance (l : List OrgRecord) : List OrgRecord :=
  List.insertionSort byRelevanceDesc l

/-- The result assembly of search_by_location (api/final_search.py lines
316-322): each tier sorted by descending relevance, then
exact_city[:10] + same_county[:8] + same_state[:2]. -/
def searchResults (loc : Location) (nearby : List String)
    (cands : List OrgRecord) : List OrgRecord :=
  (sortByRelevance (partitionByProximity loc nearby cands).1).take 10 ++
    (sortByRelevance (partitionByProximity loc nearby cands).2.1).take 8 ++
    (sortByRelevance (partitionByProximity loc nearby cands).2.2).take 2

/-- One year of financial data, the FinancialData dataclass of
src/models/nonprofit.py (lines 34-58). The data source tag is omitted. -/
structure FinancialData where
  year : Int
  total_revenue : ℚ
  total_expenses : ℚ
  total_assets : ℚ
  total_liabilities : ℚ
  net_assets : ℚ
  program_expenses : ℚ
  administrative_expenses : ℚ
  fundraising_expenses : ℚ
deriving DecidableEq

/-- The program_expense_ratio property of FinancialData
(src/models/nonprofit.py lines 47-51): program_expenses / total_expenses when
total_expenses > 0, else 0. -/
def FinancialData.program_expense_ratio (f : FinancialData) : ℚ :=
  if f.total_expenses > 0 then f.program_expenses / f.total_expenses else 0

/-- The overhead_ratio property of FinancialData (src/models/nonprofit.py
lines 53-58). -/
def FinancialData.overhead_ratio (f : FinancialData) : ℚ :=
  if f.total_expenses > 0 then
    (f.administrative_expenses + f.fundraising_expenses) / f.total_expenses
  else 0

/-- The SocialMediaPresence dataclass (src/models/nonprofit.py lines 61-69),
restricted to the fields the analyzed code reads. -/
structure SocialMediaPresence where
  platform : String
  handle : String
  followers : Int
  engagement_rate : ℚ
deriving DecidableEq

/-- The MissionAlignment dataclass (src/models/nonprofit.py lines 72-78). -/
structure MissionAlignment where
  score : ℚ
  matched_keywords : List String
  service_overlap : List (String × ℚ)
  explanation : String
  confidence : ℚ
deriving DecidableEq

/-- The PartnershipROI dataclass (src/models/nonprofit.py lines 81-88). The
resource_sharing_potential dict is modelled as keyed rational values. -/
structure PartnershipROI where
  estimated_value : ℚ
  resource_sharing_potential : List (String × ℚ)
  impact_multiplier : ℚ
  cost_savings : ℚ
  reach_expansion : Int
  explanation : String
deriving DecidableEq

/-- The Nonprofit dataclass (src/models/nonprofit.py lines 91-119), with the
fields the ranking and analysis code reads. Leadership entries keep only the
title string, the field the analyzers use. -/
structure Nonprofit where
  ein : String
  name : String
  mission_statement : String
  website : Option String := none
  financial_history : List FinancialData := []
  social_media : List SocialMediaPresence := []
  programs : List String := []
  leadership : List String := []
  mission_alignment : Option MissionAlignment := none
  partnership_roi : Option PartnershipROI := none
  overall_score : Option ℚ := none
  ranking : Option Nat := none
  data_quality_score : ℚ := 0
deriving DecidableEq

/-- get_latest_financials (src/models/nonprofit.py lines 121-124):
max(financial_history, key=lambda x: x.year), none for an empty history.
Python max keeps the first element among year ties. -/
def Nonprofit.get_latest_financials (np : Nonprofit) : Option FinancialData :=
  match np.financial_history with
  | [] => none
  | f :: fs => some (fs.foldl (fun acc x => if x.year > acc.year then x else acc) f)

/-- calculate_stability_score (src/models/nonprofit.py lines 126-151):
0.5 for fewer than 2 years of history, else 0.3 for positive latest revenue,
plus 0.3 or 0.2 by the asset to liability ratio (only when liabilities are
positive), plus program_expense_ratio * 0.4, capped at 1. -/
def Nonprofit.calculate_stability_score (np : Nonprofit) : ℚ :=
  if np.financial_history.length < 2 then 0.5
  else
    match np.get_latest_financials with
    | none => 0.5
    | some latest =>
      let score : ℚ := 0
      let score := if latest.total_revenue > 0 then score + 0.3 else score
      let score :=
        if latest.total_liabilities > 0 then
          if latest.total_assets / latest.total_liabilities > 2 then score + 0.3
          else if latest.total_assets / latest.total_liabilities > 1 then score + 0.2
          else score
        else score
      let score := score + latest.program_expense_ratio * 0.4
      min score 1

/-- The RankingCriteria dataclass (src/core/ranking_engine.py lines 15-22)
with its default weights. -/
structure RankingCriteria where
  mission_weight : ℚ := 0.35
  roi_weight : ℚ := 0.25
  stability_weight : ℚ := 0.15
  capacity_weight : ℚ := 0.15
  data_quality_weight : ℚ := 0.10
deriving DecidableEq

/-- The criteria used when none are supplied (ranking_engine.py line 31). -/
def defaultCriteria : RankingCriteria := {}

/-- Boolean non-decreasing test on a revenue list, the
all(revenues[i] <= revenues[i+1] for i in range(len(revenues)-1)) check of
ranking_engine.py line 137. -/
def revenuesNonDecreasing : List ℚ → Bool
  | [] => true
  | [_] => true
  | a :: b :: rest => decide (a ≤ b) && revenuesNonDecreasing (b :: rest)

/-- The ranking engine capacity score, _calculate_capacity_score
(src/core/ranking_engine.py lines 112-140): base 0.5, a revenue size bonus
(three tiers), an efficiency bonus (two tiers), 0.1 for non-decreasing
revenue over the last three years, capped at 1. The financial_history[-3:]
slice is the last three entries. -/
def calculate_capacity_score (np : Nonprofit) : ℚ :=
  let score : ℚ := 0.5
  let score :=
    match np.get_latest_financials with
    | none => score
    | some latest =>
      let score :=
        if latest.total_revenue > 5000000 then score + 0.2
        else if latest.total_revenue > 1000000 then score + 0.15
        else if latest.total_revenue > 100000 then score + 0.1
        else score
      let score :=
        if latest.program_expense_ratio > 0.8 then score + 0.2
        else if latest.program_expense_ratio > 0.7 then score + 0.1
        else score
      let score :=
        if np.financial_history.length ≥ 3 &&
            revenuesNonDecreasing
              ((np.financial_history.drop (np.financial_history.length - 3)).map
                (fun f => f.total_revenue)) then
          score + 0.1
        else score
      score
  min 1 score

/-- The weighted sum of lines 101-108 of _calculate_overall_score
(src/core/ranking_engine.py), applied to the five entries of the scores
dict. -/
def weighted_overall (c : RankingCriteria)
    (mission roi stability capacity data_quality : ℚ) : ℚ :=
  mission * c.mission_weight + roi * c.roi_weight +
    stability * c.stability_weight + capacity * c.capacity_weight +
    data_quality * c.data_quality_weight

/-- _calculate_overall_score (src/core/ranking_engine.py lines 73-110):
mission alignment score (0 when absent), the ROI value normalized by 100000
and clamped at 1 (0 when absent), the stability, capacity and data quality
scores, combined by the configured weights. -/
def calculate_overall_score (c : RankingCriteria) (np : Nonprofit) : ℚ :=
  let mission := match np.mission_alignment with
    | some ma => ma.score
    | none => 0
  let roi := match np.partnership_roi with
    | some r => min 1 (r.estimated_value / 100000)
    | none => 0
  weighted_overall c mission roi np.calculate_stability_score
    (calculate_capacity_score np) np.data_quality_score

/-- The two analyzers invoked by rank_nonprofits (ranking_engine.py lines
48-51). Both depend on configuration files and the external embedding model
(spec sections 4.2 and 6), so they enter the embedding as oracles; an error
value models a raised exception. -/
structure Analyzers where
  analyze_alignment : Nonprofit → Except String MissionAlignment
  calculate_roi : Nonprofit → Except String PartnershipROI

/-- The body of the per-nonprofit try block of rank_nonprofits
(ranking_engine.py lines 46-62): mission alignment and ROI are computed and
stored, then the overall score; a raised exception is caught and the
nonprofit keeps overall_score 0 while staying in the scored list. Python
mutation is modelled by record updates, so a failure after the alignment step
keeps the already stored alignment. -/
def scoreNonprofit (c : RankingCriteria) (a : Analyzers) (np : Nonprofit) :
    Nonprofit :=
  match a.analyze_alignment np with
  | .error _ => { np with overall_score := some 0 }
  | .ok ma =>
    match a.calculate_roi { np with mission_alignment := some ma } with
    | .error _ => { np with mission_alignment := some ma, overall_score := some 0 }
    | .ok roi =>
      let np2 := { np with mission_alignment := some ma, partnership_roi := some roi }
      { np2 with overall_score := some (calculate_overall_score c np2) }

/-- The sort key of ranking_engine.py line 65: x.overall_score (always set by
the scoring pass; 0 when still absent). -/
def scoreKey (np : Nonprofit) : ℚ := np.overall_score.getD 0

/-- Descending order on overall scores, the order of
sort(key=lambda x: x.overall_score, reverse=True) at ranking_engine.py
line 65. -/
def byScoreDesc (x y : Nonprofit) : Prop := scoreKey y ≤ scoreKey x

instance : DecidableRel byScoreDesc := fun x y =>
  inferInstanceAs (Decidable (scoreKey y ≤ scoreKey x))

instance : IsTotal Nonprofit byScoreDesc :=
  ⟨fun x y => le_total (scoreKey y) (scoreKey x)⟩

instance : IsTrans Nonprofit byScoreDesc :=
  ⟨fun _ _ _ h₁ h₂ => le_trans h₂ h₁⟩

/-- The rank assignment loop of ranking_engine.py lines 68-69:
enumerate(scored_nonprofits, 1) writes 1-based positions into ranking. -/
def assignRankings : Nat → List Nonprofit → List Nonprofit
  | _, [] => []
  | n, np :: rest => { np with ranking := some n } :: assignRankings (n + 1) rest

/-- rank_nonprofits (src/core/ranking_engine.py lines 35-71): score every
nonprofit (exceptions caught per organization), sort by overall score
descending with the stable Python sort (modelled by insertion sort under
byScoreDesc), then assign 1-based rankings by position. -/
def rank_nonprofits (c : RankingCriteria) (a : Analyzers)
    (nonprofits : List Nonprofit) : List Nonprofit :=
  assignRankings 1
    (List.insertionSort byScoreDesc (nonprofits.map (scoreNonprofit c a)))

/-- Forgets the ranking field, for statements comparing ranked output with
the scored input it permutes. -/
def eraseRanking (np : Nonprofit) : Nonprofit := { np with ranking := none }

/-- Python float division, raising ZeroDivisionError on a zero denominator;
the raise is modelled as none. -/
def pydiv (a b : ℚ) : Option ℚ := if b = 0 then none else some (a / b)

/-- One side of the comparison dict built by compare_nonprofits
(src/core/ranking_engine.py lines 247-265). -/
structure ComparisonSide where
  name : String
  rank : Option Nat
  overall_score : ℚ
  mission_alignment : ℚ
  roi_potential : ℚ
  stability : ℚ
  programs : Nat
deriving DecidableEq

/-- The side summary of compare_nonprofits for one nonprofit. -/
def comparisonSide (np : Nonprofit) : ComparisonSide where
  name := np.name
  rank := np.ranking
  overall_score := np.overall_score.getD 0
  mission_alignment := (np.mission_alignment.map MissionAlignment.score).getD 0
  roi_potential := (np.partnership_roi.map PartnershipROI.estimated_value).getD 0
  stability := np.calculate_stability_score
  programs := np.programs.length

/-- The comparison dict of compare_nonprofits with its recommendation line. -/
structure ComparisonResult where
  nonprofit1 : ComparisonSide
  nonprofit2 : ComparisonSide
  recommendation : String
deriving DecidableEq

/-- compare_nonprofits (src/core/ranking_engine.py lines 242-277). The
recommendation divides the score difference by the lower score: by
nonprofit2.overall_score when nonprofit1 scores strictly higher, else by
nonprofit1.overall_score. A zero denominator raises ZeroDivisionError in
Python, so the whole call is modelled as none in that case. -/
def compare_nonprofits (np1 np2 : Nonprofit) : Option ComparisonResult :=
  let s1 := np1.overall_score.getD 0
  let s2 := np2.overall_score.getD 0
  if s1 > s2 then
    (pydiv (s1 - s2) s2).map (fun d =>
      ⟨comparisonSide np1, comparisonSide np2,
        np1.name ++ " scores " ++ toString (d * 100) ++ "% higher overall"⟩)
  else
    (pydiv (s2 - s1) s1).map (fun d =>
      ⟨comparisonSide np1, comparisonSide np2,
        np2.name ++ " scores " ++ toString (d * 100) ++ "% higher overall"⟩)

/-- The scoring_weights block of the mission configuration read by
MissionAlignmentAnalyzer (src/analyzers/mission_alignment.py line 69);
configuration data, so a parameter of the embedding. -/
structure AlignmentWeights where
  mission_alignment : ℚ
  service_overlap : ℚ
  geographic_coverage : ℚ
  organizational_capacity : ℚ
  partnership_history : ℚ
deriving DecidableEq

/-- The values analyze_alignment obtains from the external embedding model
and keyword configuration (src/analyzers/mission_alignment.py lines 62-65):
semantic similarity, keyword score, matched keywords and the per-category
service overlap. External collaborators per spec section 6, so oracles. -/
structure AlignmentOracle where
  semantic_score : ℚ
  keyword_score : ℚ
  matched_keywords : List String
  service_overlap : List (String × ℚ)
deriving DecidableEq

/-- np.mean over the service overlap values (mission_alignment.py line 72);
0 for an empty category list (the configuration always has categories). -/
def meanValues (l : List (String × ℚ)) : ℚ :=
  if l.length = 0 then 0 else (l.map Prod.snd).sum / l.length

/-- _geographic_alignment (mission_alignment.py lines 196-200): a fixed
default of 0.7. -/
def geographic_alignment : ℚ := 0.7

/-- The mission analyzer capacity sub-score, _capacity_score
(src/analyzers/mission_alignment.py lines 202-226): base 0.5, revenue bonus
(two tiers), efficiency bonus (two tiers), plus 0.02 per social media account
with over 100 followers capped at 0.1, all capped at 1. -/
def analyzer_capacity_score (np : Nonprofit) : ℚ :=
  let score : ℚ := 0.5
  let score :=
    match np.get_latest_financials with
    | none => score
    | some latest =>
      let score :=
        if latest.total_revenue > 1000000 then score + 0.2
        else if latest.total_revenue > 100000 then score + 0.1
        else score
      if latest.program_expense_ratio > 0.75 then score + 0.2
      else if latest.program_expense_ratio > 0.65 then score + 0.1
      else score
  let score :=
    if np.social_media.length ≠ 0 then
      score +
        min 0.1 ((np.social_media.countP (fun sm => sm.followers > 100) : ℚ) * 0.02)
    else score
  min 1 score

/-- _calculate_confidence (src/analyzers/mission_alignment.py lines
234-252): a presence-weighted sum over the data fields, capped at 1. -/
def calculate_confidence (np : Nonprofit) : ℚ :=
  let confidence : ℚ := 0
  let confidence := if np.mission_statement ≠ "" then confidence + 0.3 else confidence
  let confidence := if np.programs ≠ [] then confidence + 0.2 else confidence
  let confidence := if np.financial_history ≠ [] then confidence + 0.2 else confidence
  let confidence := if np.website.isSome then confidence + 0.1 else confidence
  let confidence := if np.social_media ≠ [] then confidence + 0.1 else confidence
  let confidence := if np.leadership ≠ [] then confidence + 0.1 else confidence
  min 1 confidence

/-- The overall assessment line of _generate_explanation
(src/analyzers/mission_alignment.py lines 260-269). The score it reads is
nonprofit.mission_alignment.score if nonprofit.mission_alignment else 0: the
alignment STORED on the nonprofit when the explanation is generated, which at
that point is the value from before the current analysis (none on a first
analysis). The interpolated percentage is omitted from the string. -/
def explanationLabel (stored : Option MissionAlignment) : String :=
  let overall : ℚ := match stored with
    | some ma => ma.score
    | none => 0
  if overall > 0.8 then "Strong alignment with Red Cross mission"
  else if overall > 0.6 then "Good alignment with Red Cross mission"
  else if overall > 0.4 then "Moderate alignment with Red Cross mission"
  else "Limited alignment with Red Cross mission"

/-- analyze_alignment (src/analyzers/mission_alignment.py lines 55-93): the
weighted overall score of line 70 (combining semantic similarity, mean
service overlap, geographic coverage, the analyzer capacity score and the
stability score as partnership proxy), clamped at 1; the explanation is
generated by _generate_explanation before the result is stored, so its
assessment label reads the previously stored alignment. The explanation
keeps only that leading assessment label. -/
def analyze_alignment (w : AlignmentWeights) (o : AlignmentOracle)
    (np : Nonprofit) : MissionAlignment :=
  let overall :=
    w.mission_alignment * o.semantic_score +
    w.service_overlap * meanValues o.service_overlap +
    w.geographic_coverage * geographic_alignment +
    w.organizational_capacity * analyzer_capacity_score np +
    w.partnership_history * np.calculate_stability_score
  { score := min 1 overall
    matched_keywords := o.matched_keywords
    service_overlap := o.service_overlap
    explanation := explanationLabel np.mission_alignment
    confidence := calculate_confidence np }

/-! Helper lemmas about the tier partition. -/

/-- The three tier lists are the filters of the candidate list by the three
conditions, tested in priority order. -/
theorem partition_eq_filters (loc : Location) (nearby : List String)
    (cands : List OrgRecord) :
    (partitionByProximity loc nearby cands).1 =
      cands.filter (fun o => isExactCity loc o) ∧
    (partitionByProximity loc nearby cands).2.1 =
      cands.filter (fun o => !isExactCity loc o && isCountyCity nearby o) ∧
    (partitionByProximity loc nearby cands).2.2 =
      cands.filter
        (fun o => !isExactCity loc o && !isCountyCity nearby o && isSameState loc o) := by
  induction cands with
  | nil => exact ⟨rfl, rfl, rfl⟩
  | cons org rest ih =>
    obtain ⟨h1, h2, h3⟩ := ih
    simp only [partitionByProximity, List.filter_cons]
    by_cases he : isExactCity loc org <;>
      by_cases hc : isCountyCity nearby org <;>
      by_cases hs : isSameState loc org <;>
      simp [he, hc, hs, h1, h2, h3]

/-- Counting elements that satisfy the first of three conditions, the second
but not the first, or the third but neither earlier one, together counts the
elements satisfying some condition. -/
theorem countP_priority_split {α : Type} (p1 p2 p3 : α → Bool) (l : List α) :
    l.countP p1 + l.countP (fun o => !p1 o && p2 o) +
      l.countP (fun o => !p1 o && !p2 o && p3 o) =
      l.countP (fun o => p1 o || p2 o || p3 o) := by
  induction l with
  | nil => rfl
  | cons a t ih =>
    by_cases h1 : p1 a <;> by_cases h2 : p2 a <;> by_cases h3 : p3 a <;>
      simp [List.countP_cons, h1, h2, h3] <;> omega

/-- An element of one truncated sorted tier built from a filter satisfies the
filter condition. -/
theorem of_mem_take_sort_filter {q : OrgRecord → Bool} {cands : List OrgRecord}
    {k : ℕ} {a : OrgRecord} (h : a ∈ (sortByRelevance (cands.filter q)).take k) :
    q a = true :=
  List.of_mem_filter ((List.mem_insertionSort _).mp (List.mem_of_mem_take h))

/-! Concrete inputs for the tiering claims, drawn from the static ZIP table
of api/final_search.py: ZIP 75201 resolves to Dallas, Dallas County, TX, and
the cities of Dallas County in the table are Carrollton, Dallas, Irving and
Richardson (get_cities_in_county). -/

def dallasLoc : Location := ⟨"Dallas", "Dallas County", "TX"⟩

def dallasNearby : List String := ["Carrollton", "Dallas", "Irving", "Richardson"]

/-- A candidate from another state: it matches none of the three tier
conditions. -/
def miamiOrg : OrgRecord := ⟨"590637847", "Florida Relief", "Miami", "FL", 5⟩

/-- A candidate whose city is exactly a Dallas County city of the table. -/
def irvingOrg : OrgRecord := ⟨"751234567", "North Texas Food", "Irving", "TX", 3⟩

/-- A candidate whose city differs from the listed county city Irving only in
letter case. -/
def upperIrvingOrg : OrgRecord := ⟨"751234568", "IRVING CHARITY", "IRVING", "TX", 4⟩

/-- Claim C1 counterexample: a candidate from a different state is placed in
no tier at all. partitionByProximity has only three output lists and drops
the candidate, so no four tiers jointly contain every input candidate. -/
theorem partition_drops_other_state :
    partitionByProximity dallasLoc dallasNearby [miamiOrg] = ([], [], []) := by rfl

/-- Claim C1 (amended): partitionByProximity assigns each candidate to at
most one tier, testing in priority order: exact if the location city is
nonempty and case-insensitively equals the candidate city, else county if
the candidate city is a (case-sensitive) member of nearbyCities, else state
if the states are equal; a candidate matching none of the three conditions
is dropped. The three tiers are exactly the filters of the input by these
mutually exclusive conditions, and their sizes add up to the number of
candidates matching some condition, so no candidate is duplicated across
tiers. -/
theorem partitionByProximity_assigns_tiers (loc : Location)
    (nearby : List String) (cands : List OrgRecord) :
    ((partitionByProximity loc nearby cands).1 =
        cands.filter (fun o => isExactCity loc o) ∧
      (partitionByProximity loc nearby cands).2.1 =
        cands.filter (fun o => !isExactCity loc o && isCountyCity nearby o) ∧
      (partitionByProximity loc nearby cands).2.2 =
        cands.filter
          (fun o => !isExactCity loc o && !isCountyCity nearby o && isSameState loc o)) ∧
    (partitionByProximity loc nearby cands).1.length +
        (partitionByProximity loc nearby cands).2.1.length +
        (partitionByProximity loc nearby cands).2.2.length =
      cands.countP
        (fun o => isExactCity loc o || isCountyCity nearby o || isSameState loc o) := by
  obtain ⟨h1, h2, h3⟩ := partition_eq_filters loc nearby cands
  refine ⟨⟨h1, h2, h3⟩, ?_⟩
  rw [h1, h2, h3, ← List.countP_eq_length_filter, ← List.countP_eq_length_filter,
    ← List.countP_eq_length_filter]
  exact countP_priority_split _ _ _ cands

/-- Ten candidates in the exact city Dallas, with descending relevance. -/
def tenDallasOrgs : List OrgRecord :=
  [⟨"d0", "Dallas Org 0", "Dallas", "TX", 20⟩,
   ⟨"d1", "Dallas Org 1", "Dallas", "TX", 19⟩,
   ⟨"d2", "Dallas Org 2", "Dallas", "TX", 18⟩,
   ⟨"d3", "Dallas Org 3", "Dallas", "TX", 17⟩,
   ⟨"d4", "Dallas Org 4", "Dallas", "TX", 16⟩,
   ⟨"d5", "Dallas Org 5", "Dallas", "TX", 15⟩,
   ⟨"d6", "Dallas Org 6", "Dallas", "TX", 14⟩,
   ⟨"d7", "Dallas Org 7", "Dallas", "TX", 13⟩,
   ⟨"d8", "Dallas Org 8", "Dallas", "TX", 12⟩,
   ⟨"d9", "Dallas Org 9", "Dallas", "TX", 11⟩]

/-- A candidate elsewhere in Texas: state tier. -/
def austinOrg : OrgRecord := ⟨"741234567", "Austin Relief", "Austin", "TX", 9⟩

/-- Claim C5 counterexample: with the exact tier at its full cap of ten
candidates (not sparse), the state-tier candidate is still included in the
returned results, contradicting the claim that state-tier candidates appear
only when the higher tiers are sparse. -/
theorem state_tier_included_when_exact_full :
    (partitionByProximity dallasLoc dallasNearby (tenDallasOrgs ++ [austinOrg])).1.length
        = 10 ∧
      austinOrg ∈ searchResults dallasLoc dallasNearby (tenDallasOrgs ++ [austinOrg]) := by
  constructor
  · rfl
  · decide

/-- Claim C5 (amended): the returned list contains at most 10 exact-tier
candidates, at most 8 county-tier candidates and at most 2 state-tier
candidates (the code truncates the state tier at 2, not 5), and the
state-tier slice is included unconditionally, independent of how full the
higher tiers are. -/
theorem searchResults_tier_caps (loc : Location) (nearby : List String)
    (cands : List OrgRecord) :
    (searchResults loc nearby cands).countP (fun o => isExactCity loc o) ≤ 10 ∧
    (searchResults loc nearby cands).countP
        (fun o => !isExactCity loc o && isCountyCity nearby o) ≤ 8 ∧
    (searchResults loc nearby cands).countP
        (fun o => !isExactCity loc o && !isCountyCity nearby o && isSameState loc o) ≤ 2 := by
  obtain ⟨h1, h2, h3⟩ := partition_eq_filters loc nearby cands
  unfold searchResults
  rw [h1, h2, h3]
  simp only [List.countP_append]
  refine ⟨?_, ?_, ?_⟩
  · have hb : ((sortByRelevance (cands.filter (fun o => isExactCity loc o))).take 10).countP
        (fun o => isExactCity loc o) ≤ 10 :=
      le_trans (List.countP_le_length _) (List.length_take_le _ _)
    have hz1 : ((sortByRelevance (cands.filter
        (fun o => !isExactCity loc o && isCountyCity nearby o))).take 8).countP
        (fun o => isExactCity loc o) = 0 := by
      rw [List.countP_eq_zero]
      intro a ha
      have := of_mem_take_sort_filter ha
      simp at this
      simp [this.1]
    have hz2 : ((sortByRelevance (cands.filter
        (fun o => !isExactCity loc o && !isCountyCity nearby o && isSameState loc o))).take 2).countP
        (fun o => isExactCity loc o) = 0 := by
      rw [List.countP_eq_zero]
      intro a ha
      have := of_mem_take_sort_filter ha
      simp at this
      simp [this.1]
    omega
  · have hb : ((sortByRelevance (cands.filter
        (fun o => !isExactCity loc o && isCountyCity nearby o))).take 8).countP
        (fun o => !isExactCity loc o && isCountyCity nearby o) ≤ 8 :=
      le_trans (List.countP_le_length _) (List.length_take_le _ _)
    have hz1 : ((sortByRelevance (cands.filter (fun o => isExactCity loc o))).take 10).countP
        (fun o => !isExactCity loc o && isCountyCity nearby o) = 0 := by
      rw [List.countP_eq_zero]
      intro a ha
      have := of_mem_take_sort_filter ha
      simp [this]
    have hz2 : ((sortByRelevance (cands.filter
        (fun o => !isExactCity loc o && !isCountyCity nearby o && isSameState loc o))).take 2).countP
        (fun o => !isExactCity loc o && isCountyCity nearby o) = 0 := by
      rw [List.countP_eq_zero]
      intro a ha
      have := of_mem_take_sort_filter ha
      simp at this
      simp_all
    omega
  · have hb : ((sortByRelevance (cands.filter
        (fun o => !isExactCity loc o && !isCountyCity nearby o && isSameState loc o))).take 2).countP
        (fun o => !isExactCity loc o && !isCountyCity nearby o && isSameState loc o) ≤ 2 :=
      le_trans (List.countP_le_length _) (List.length_take_le _ _)
    have hz1 : ((sortByRelevance (cands.filter (fun o => isExactCity loc o))).take 10).countP
        (fun o => !isExactCity loc o && !isCountyCity nearby o && isSameState loc o) = 0 := by
      rw [List.countP_eq_zero]
      intro a ha
      have := of_mem_take_sort_filter ha
      simp [this]
    have hz2 : ((sortByRelevance (cands.filter
        (fun o => !isExactCity loc o && isCountyCity nearby o))).take 8).countP
        (fun o => !isExactCity loc o && !isCountyCity nearby o && isSameState loc o) = 0 := by
      rw [List.countP_eq_zero]
      intro a ha
      have := of_mem_take_sort_filter ha
      simp at this
      simp_all
    omega

/-- Claim C6 counterexample: the candidate city IRVING case-insensitively
equals the nearbyCities member Irving, but the case-sensitive membership test
of the code leaves the county tier empty and the candidate lands in the
state tier. -/
theorem case_insensitive_county_match_not_in_county_tier :
    pyLower upperIrvingOrg.city = pyLower "Irving" ∧
      dallasNearby.contains "Irving" = true ∧
      partitionByProximity dallasLoc dallasNearby [upperIrvingOrg] =
        ([], [], [upperIrvingOrg]) := by
  exact ⟨rfl, rfl, rfl⟩

/-- Claim C6 (amended): for a candidate that fails the exact-city test, being
placed in the county tier is equivalent to its city being an exact,
case-sensitive member of nearbyCities; a candidate whose city only
case-insensitively equals a member is not placed in the county tier. -/
theorem county_tier_iff_exact_member (loc : Location) (nearby : List String)
    (cands : List OrgRecord) (o : OrgRecord) (ho : o ∈ cands)
    (he : isExactCity loc o = false) :
    o ∈ (partitionByProximity loc nearby cands).2.1 ↔
      nearby.contains o.city = true := by
  rw [(partition_eq_filters loc nearby cands).2.1]
  simp [List.mem_filter, ho, he, isCountyCity]

/-- Witness for claim C6: the candidate whose city is exactly Irving is
placed in the county tier of the Dallas search. -/
theorem county_tier_iff_exact_member_holds :
    irvingOrg ∈ (partitionByProximity dallasLoc dallasNearby [irvingOrg]).2.1 :=
  (county_tier_iff_exact_member dallasLoc dallasNearby [irvingOrg] irvingOrg
    (by simp) (by rfl)).mpr (by rfl)

/-! Concrete nonprofits for the ranking claims. -/

/-- A nonprofit with no financial history at all. -/
def noHistoryOrg : Nonprofit :=
  { ein := "330000001", name := "Fresh Org", mission_statement := "relief" }

def fin2022 : FinancialData :=
  ⟨2022, 450000, 380000, 250000, 90000, 160000, 300000, 50000, 30000⟩

def fin2023 : FinancialData :=
  ⟨2023, 500000, 400000, 300000, 100000, 200000, 320000, 50000, 30000⟩

/-- A nonprofit with two years of financial history. -/
def twoYearOrg : Nonprofit :=
  { ein := "330000002", name := "Two Year Org", mission_statement := "relief",
    financial_history := [fin2022, fin2023] }

/-- Claim C4 counterexample: a nonprofit with fewer than two years of
financial history gets stability score 0.5, not 0 as the claim states. -/
theorem stability_half_without_history :
    noHistoryOrg.calculate_stability_score = 0.5 ∧
      noHistoryOrg.calculate_stability_score ≠ 0 := by
  have h : noHistoryOrg.calculate_stability_score = 0.5 := rfl
  exact ⟨h, by rw [h]; norm_num⟩

/-- Claim C4 (amended): with fewer than 2 years of financial history the
stability score is 0.5 (not 0); otherwise it is the sum of 0.3 if the latest
total revenue is positive, plus 0.3 if liabilities are positive and the
asset-to-liability ratio exceeds 2 (0.2 if it exceeds 1), plus the program
expense ratio times 0.4, capped at 1.0. -/
theorem calculate_stability_score_spec (np : Nonprofit) (latest : FinancialData)
    (h2 : 2 ≤ np.financial_history.length)
    (hl : np.get_latest_financials = some latest) :
    np.calculate_stability_score =
      min 1 ((if latest.total_revenue > 0 then (0.3 : ℚ) else 0) +
        (if latest.total_liabilities > 0 then
          if latest.total_assets / latest.total_liabilities > 2 then (0.3 : ℚ)
          else if latest.total_assets / latest.total_liabilities > 1 then 0.2
          else 0
        else 0) +
        latest.program_expense_ratio * 0.4) ∧
    ∀ np2 : Nonprofit, np2.financial_history.length < 2 →
      np2.calculate_stability_score = 0.5 := by
  constructor
  · unfold Nonprofit.calculate_stability_score
    rw [if_neg (by omega), hl]
    dsimp only
    split_ifs <;> rw [min_comm] <;> ring_nf
  · intro np2 hlen
    unfold Nonprofit.calculate_stability_score
    rw [if_pos hlen]

/-- Witness for claim C4: the two-year nonprofit evaluates to the stated
formula at its latest financial year. -/
theorem calculate_stability_score_spec_holds :
    twoYearOrg.calculate_stability_score =
      min 1 ((if fin2023.total_revenue > 0 then (0.3 : ℚ) else 0) +
        (if fin2023.total_liabilities > 0 then
          if fin2023.total_assets / fin2023.total_liabilities > 2 then (0.3 : ℚ)
          else if fin2023.total_assets / fin2023.total_liabilities > 1 then 0.2
          else 0
        else 0) +
        fin2023.program_expense_ratio * 0.4) :=
  (calculate_stability_score_spec twoYearOrg fin2023 (by decide) rfl).1

/-- Claim C9: the ranking engine capacity score always lies between 0.5 and
1: the base is 0.5, every bonus is nonnegative, and the total is capped at
1; an organization with no financial history keeps the base 0.5 and still
satisfies the bounds. -/
theorem capacity_score_bounds (np : Nonprofit) :
    1/2 ≤ calculate_capacity_score np ∧ calculate_capacity_score np ≤ 1 := by
  unfold calculate_capacity_score
  refine ⟨le_min (by norm_num) ?_, min_le_left _ _⟩
  rcases np.get_latest_financials with _ | latest
  · norm_num
  · simp only
    split_ifs <;> norm_num

/-- A nonprofit carrying stored mission alignment and ROI results, for the
overall score formula. -/
def maW : MissionAlignment := ⟨0.9, ["disaster"], [], "", 0.5⟩

def roiW : PartnershipROI := ⟨120000, [], 1, 30000, 500, ""⟩

def scoredOrg : Nonprofit :=
  { ein := "741111111", name := "Scored Org", mission_statement := "disaster relief",
    mission_alignment := some maW, partnership_roi := some roiW,
    data_quality_score := 0.8 }

/-- Claim C2: the overall score is the weighted sum of the five sub-scores
with the ROI value normalized by 100000 and clamped at 1, using the default
weights 0.35, 0.25, 0.15, 0.15, 0.10; and for sub-score inputs in the unit
interval with a nonnegative ROI estimate, the weighted combination stays in
the unit interval. -/
theorem overall_score_formula_and_bounds :
    (∀ (np : Nonprofit) (ma : MissionAlignment) (roi : PartnershipROI),
        np.mission_alignment = some ma → np.partnership_roi = some roi →
        calculate_overall_score defaultCriteria np =
          0.35 * ma.score + 0.25 * min 1 (roi.estimated_value / 100000) +
            0.15 * np.calculate_stability_score +
            0.15 * calculate_capacity_score np +
            0.10 * np.data_quality_score) ∧
    (∀ m roiEst s c d : ℚ, 0 ≤ m → m ≤ 1 → 0 ≤ roiEst →
        0 ≤ s → s ≤ 1 → 0 ≤ c → c ≤ 1 → 0 ≤ d → d ≤ 1 →
        0 ≤ weighted_overall defaultCriteria m (min 1 (roiEst / 100000)) s c d ∧
          weighted_overall defaultCriteria m (min 1 (roiEst / 100000)) s c d ≤ 1) := by
  constructor
  · intro np ma roi hma hroi
    simp only [calculate_overall_score, hma, hroi, weighted_overall, defaultCriteria]
    ring
  · intro m roiEst s c d hm0 hm1 hr0 hs0 hs1 hc0 hc1 hd0 hd1
    have h1 : 0 ≤ min 1 (roiEst / 100000) :=
      le_min (by norm_num) (by positivity)
    have h2 : min 1 (roiEst / 100000) ≤ 1 := min_le_left _ _
    simp only [weighted_overall, defaultCriteria]
    norm_num
    constructor <;> nlinarith

/-- Witness for claim C2: the formula at a concrete scored organization, and
the bounds at concrete sub-scores. -/
theorem overall_score_formula_and_bounds_holds :
    calculate_overall_score defaultCriteria scoredOrg =
      0.35 * maW.score + 0.25 * min 1 (roiW.estimated_value / 100000) +
        0.15 * scoredOrg.calculate_stability_score +
        0.15 * calculate_capacity_score scoredOrg +
        0.10 * scoredOrg.data_quality_score ∧
    (0 ≤ weighted_overall defaultCriteria 1 (min 1 ((200000 : ℚ) / 100000)) 1 1 1 ∧
      weighted_overall defaultCriteria 1 (min 1 ((200000 : ℚ) / 100000)) 1 1 1 ≤ 1) :=
  ⟨(overall_score_formula_and_bounds).1 scoredOrg maW roiW rfl rfl,
    (overall_score_formula_and_bounds).2 1 200000 1 1 1 (by norm_num) (by norm_num)
      (by norm_num) (by norm_num) (by norm_num) (by norm_num) (by norm_num)
      (by norm_num) (by norm_num)⟩

/-- Two nonprofits whose overall scores are both zero. -/
def zeroOrg1 : Nonprofit :=
  { ein := "910000001", name := "Zero One", mission_statement := "aid",
    overall_score := some 0 }

def zeroOrg2 : Nonprofit :=
  { ein := "910000002", name := "Zero Two", mission_statement := "aid",
    overall_score := some 0 }

/-- Claim C10: whenever the organization used as the denominator of the
percentage difference has overall score 0, compare_nonprofits raises a
ZeroDivisionError (modelled as none) instead of returning a comparison. -/
theorem compare_nonprofits_div_zero (np1 np2 : Nonprofit)
    (h : (if np2.overall_score.getD 0 < np1.overall_score.getD 0
          then np2.overall_score.getD 0
          else np1.overall_score.getD 0) = 0) :
    compare_nonprofits np1 np2 = none := by
  by_cases hgt : np2.overall_score.getD 0 < np1.overall_score.getD 0
  · rw [if_pos hgt] at h
    unfold compare_nonprofits
    dsimp only
    rw [if_pos hgt]
    simp [pydiv, h]
  · rw [if_neg hgt] at h
    unfold compare_nonprofits
    dsimp only
    rw [if_neg hgt]
    simp [pydiv, h]

/-- Witness for claim C10: with both overall scores zero the comparison hits
the zero denominator and fails. -/
theorem compare_nonprofits_div_zero_at_zero :
    compare_nonprofits zeroOrg1 zeroOrg2 = none :=
  compare_nonprofits_div_zero zeroOrg1 zeroOrg2 (by norm_num [zeroOrg1, zeroOrg2])

/-! Helper lemmas about rank assignment and scoring. -/

/-- Rank assignment only writes the ranking field. -/
theorem assignRankings_map_eraseRanking (n : ℕ) (l : List Nonprofit) :
    (assignRankings n l).map eraseRanking = l.map eraseRanking := by
  induction l generalizing n with
  | nil => rfl
  | cons x t ih => simp [assignRankings, eraseRanking, ih]

/-- Rank assignment writes consecutive 1-based positions. -/
theorem assignRankings_map_ranking (n : ℕ) (l : List Nonprofit) :
    (assignRankings n l).map Nonprofit.ranking = (List.range' n l.length).map some := by
  induction l generalizing n with
  | nil => rfl
  | cons x t ih => simp [assignRankings, List.range', ih]

/-- Rank assignment keeps the length. -/
theorem assignRankings_length (n : ℕ) (l : List Nonprofit) :
    (assignRankings n l).length = l.length := by
  induction l generalizing n with
  | nil => rfl
  | cons x t ih => simp [assignRankings, ih]

/-- Every member of the rank-assigned list is a member of the input with some
rank written into it. -/
theorem mem_assignRankings (n : ℕ) (l : List Nonprofit) (x : Nonprofit)
    (hx : x ∈ l) : ∃ k, { x with ranking := some k } ∈ assignRankings n l := by
  induction l generalizing n with
  | nil => cases hx
  | cons y t ih =>
    rcases List.mem_cons.mp hx with rfl | hmem
    · exact ⟨n, List.mem_cons_self _ _⟩
    · obtain ⟨k, hk⟩ := ih (n + 1) hmem
      exact ⟨k, List.mem_cons_of_mem _ hk⟩

/-- Whether the scoring of one nonprofit inside rank_nonprofits raises: true
when analyze_alignment raises, or when calculate_roi raises afterwards. -/
def scoringFails (a : Analyzers) (np : Nonprofit) : Bool :=
  match a.analyze_alignment np with
  | .error _ => true
  | .ok ma =>
    match a.calculate_roi { np with mission_alignment := some ma } with
    | .error _ => true
    | .ok _ => false

/-- Scoring keeps the identity fields, and a failing nonprofit gets overall
score 0. -/
theorem scoreNonprofit_of_fails (c : RankingCriteria) (a : Analyzers)
    (np : Nonprofit) (hf : scoringFails a np = true) :
    (scoreNonprofit c a np).overall_score = some 0 ∧
      (scoreNonprofit c a np).ein = np.ein ∧
      (scoreNonprofit c a np).name = np.name := by
  cases h1 : a.analyze_alignment np with
  | error e => refine ⟨?_, ?_, ?_⟩ <;> simp [scoreNonprofit, h1]
  | ok ma =>
    cases h2 : a.calculate_roi { np with mission_alignment := some ma } with
    | error e => refine ⟨?_, ?_, ?_⟩ <;> simp [scoreNonprofit, h1, h2]
    | ok roi => simp [scoringFails, h1, h2] at hf

/-- Claim C3: rank_nonprofits returns exactly the scored input organizations
(a permutation once the overwritten ranking field is ignored), sorted by
overall score descending, assigns the rank values 1..N by position, and the
sort is stable: two scored organizations with equal overall scores keep
their original relative order in the output. -/
theorem rank_nonprofits_spec (c : RankingCriteria) (a : Analyzers)
    (nps : List Nonprofit) :
    ((rank_nonprofits c a nps).map eraseRanking).Perm
        ((nps.map (scoreNonprofit c a)).map eraseRanking) ∧
    (rank_nonprofits c a nps).Pairwise byScoreDesc ∧
    (rank_nonprofits c a nps).map Nonprofit.ranking =
      (List.range' 1 nps.length).map some ∧
    ∀ x y : Nonprofit, scoreKey x = scoreKey y →
      List.Sublist [x, y] (nps.map (scoreNonprofit c a)) →
      List.Sublist [eraseRanking x, eraseRanking y]
        ((rank_nonprofits c a nps).map eraseRanking) := by
  have hsorted : (List.insertionSort byScoreDesc (nps.map (scoreNonprofit c a))).Pairwise
      byScoreDesc :=
    List.sorted_insertionSort byScoreDesc (nps.map (scoreNonprofit c a))
  refine ⟨?_, ?_, ?_, ?_⟩
  · rw [rank_nonprofits, assignRankings_map_eraseRanking]
    exact (List.perm_insertionSort byScoreDesc _).map eraseRanking
  · have h1 : ((rank_nonprofits c a nps).map eraseRanking).Pairwise byScoreDesc := by
      rw [rank_nonprofits, assignRankings_map_eraseRanking]
      rw [List.pairwise_map]
      exact hsorted.imp (fun h => h)
    rw [List.pairwise_map] at h1
    exact h1.imp (fun h => h)
  · rw [rank_nonprofits, assignRankings_map_ranking]
    simp
  · intro x y hxy hsub
    have hpair : List.Sublist [x, y]
        (List.insertionSort byScoreDesc (nps.map (scoreNonprofit c a))) :=
      List.pair_sublist_insertionSort (le_of_eq hxy.symm) hsub
    have := hpair.map eraseRanking
    rw [rank_nonprofits, assignRankings_map_eraseRanking]
    simpa using this

/-- The analyzers of a deployment where both external models are
unavailable: every call raises. -/
def failingAnalyzers : Analyzers :=
  ⟨fun _ => .error "model unavailable", fun _ => .error "model unavailable"⟩

def npA : Nonprofit := { ein := "111111111", name := "Org A", mission_statement := "food" }

def npB : Nonprofit := { ein := "222222222", name := "Org B", mission_statement := "shelter" }

/-- Witness for claim C3: two equal-scored organizations keep their original
relative order in the ranked output. -/
theorem rank_nonprofits_spec_holds :
    List.Sublist
      [eraseRanking (scoreNonprofit defaultCriteria failingAnalyzers npA),
       eraseRanking (scoreNonprofit defaultCriteria failingAnalyzers npB)]
      ((rank_nonprofits defaultCriteria failingAnalyzers [npA, npB]).map eraseRanking) :=
  (rank_nonprofits_spec defaultCriteria failingAnalyzers [npA, npB]).2.2.2
    (scoreNonprofit defaultCriteria failingAnalyzers npA)
    (scoreNonprofit defaultCriteria failingAnalyzers npB)
    rfl (List.Sublist.refl _)

/-- Claim C7: ranking never drops an organization (the output length always
equals the input length), and an organization whose scoring raises is still
in the ranked output, carrying overall score 0. -/
theorem rank_tolerates_scoring_failures (c : RankingCriteria) (a : Analyzers)
    (nps : List Nonprofit) :
    (rank_nonprofits c a nps).length = nps.length ∧
    ∀ np ∈ nps, scoringFails a np = true →
      ∃ np2, np2 ∈ rank_nonprofits c a nps ∧ np2.ein = np.ein ∧
        np2.name = np.name ∧ np2.overall_score = some 0 := by
  constructor
  · rw [rank_nonprofits, assignRankings_length, List.length_insertionSort,
      List.length_map]
  · intro np hmem hf
    obtain ⟨hscore, hein, hname⟩ := scoreNonprofit_of_fails c a np hf
    have hsortmem : scoreNonprofit c a np ∈
        List.insertionSort byScoreDesc (nps.map (scoreNonprofit c a)) :=
      (List.mem_insertionSort _).mpr (List.mem_map_of_mem _ hmem)
    obtain ⟨k, hk⟩ := mem_assignRankings 1 _ _ hsortmem
    refine ⟨{ scoreNonprofit c a np with ranking := some k }, ?_, hein, hname, hscore⟩
    rw [rank_nonprofits]
    exact hk

/-- Witness for claim C7: with every analyzer call raising, the single input
organization still appears in the ranked output with overall score 0. -/
theorem rank_tolerates_scoring_failures_holds :
    ∃ np2, np2 ∈ rank_nonprofits defaultCriteria failingAnalyzers [npA] ∧
      np2.ein = npA.ein ∧ np2.name = npA.name ∧ np2.overall_score = some 0 :=
  (rank_tolerates_scoring_failures defaultCriteria failingAnalyzers [npA]).2
    npA (List.mem_singleton_self _) rfl

/-! The stale-read of the mission alignment explanation. -/

/-- A nonprofit analyzed for the first time: no stored mission alignment. -/
def freshOrg : Nonprofit :=
  { ein := "330000003", name := "Fresh Analysis Org",
    mission_statement := "disaster relief" }

/-- Weights putting all mass on the semantic component, so the fresh overall
alignment score is the semantic similarity. -/
def strongWeights : AlignmentWeights := ⟨1, 0, 0, 0, 0⟩

/-- Oracle values for a strongly aligned organization. -/
def strongOracle : AlignmentOracle := ⟨0.9, 0.8, ["disaster"], []⟩

/-- Claim C8: the mission alignment analysis of a first-time organization
computes a score above 0.8, yet the explanation it returns carries the
Limited label, because _generate_explanation reads the stored (stale)
mission_alignment field instead of the just-computed score. The claim and
the spec describe a label tiered by the just-computed score; the code reads
the pre-analysis value, which is 0 here. -/
theorem explanation_reads_stale_alignment :
    (analyze_alignment strongWeights strongOracle freshOrg).score > 0.8 ∧
      (analyze_alignment strongWeights strongOracle freshOrg).explanation =
        "Limited alignment with Red Cross mission" := by
  constructor
  · show min 1 _ > 0.8
    norm_num [strongWeights, strongOracle, freshOrg, meanValues,
      geographic_alignment, analyzer_capacity_score,
      Nonprofit.calculate_stability_score, Nonprofit.get_latest_financials]
  · show explanationLabel freshOrg.mission_alignment = _
    norm_num [freshOrg, explanationLabel]

end NPF
